import Mathlib

/-!
Verification of the tiny_jsdelivr service core.

The definitions below are shallow embeddings of the Python source:

* `FeasibleVersionsList.make`  — `service/tiny_jsdelivr.py`, version resolution;
* `PathInfo.make`              — `service/tiny_utils/network.py`, request-path parsing;
* `download_and_unpack_tarball`— `service/tiny_jsdelivr.py`, tarball cache manager;
* `find_entry_file_from_package_json` — `service/tiny_utils/node_ecosys.py`;
* `report_cache_folder_size`   — `service/tiny_jsdelivr.py`, cache-size warning.

The external `nodesemver` library (version validity and range matching) is
abstracted as a `SemverOracle`: `is_valid_version` is an arbitrary Boolean
predicate, and `range s` is `some matcher` when `NodeVersionRange(s)` would
construct successfully and `none` when construction (or any step inside the
`try` block) raises — the Python code catches every exception there.

Python dicts are embedded as association lists with the dict's key order;
key lookup is `List.lookup`, key membership is `List.contains` on the keys.
-/

namespace TinyJsdelivr

/-- `_DistObjectJson` from `tiny_utils/node_ecosys.py`. -/
structure DistObjectJson where
  tarball : String
deriving DecidableEq

/-- `_VersionValueJson` from `tiny_utils/node_ecosys.py`. -/
structure VersionValueJson where
  dist : DistObjectJson
deriving DecidableEq

/-- `ValidRegistryJson` from `tiny_utils/node_ecosys.py`: the registry
document, with its `dist-tags` and `versions` dicts as association lists. -/
structure ValidRegistryJson where
  dist_tags : List (String × String)
  versions : List (String × VersionValueJson)
deriving DecidableEq

/-- Abstraction of the external `nodesemver` library as used by the service:
`is_valid_version s` models `nodesemver.valid(s, False)` being truthy, and
`range s` models `NodeVersionRange(s)`: `some matcher` when construction
succeeds (with `matcher v` modelling `v in the range`), `none` when the
constructor raises (the service catches every exception from that block). -/
structure SemverOracle where
  is_valid_version : String → Bool
  range : String → Option (String → Bool)

/-- `FeasibleVersionsList` from `service/tiny_jsdelivr.py`. -/
structure FeasibleVersionsList where
  versions : List String
  version_is_designated : Bool
deriving DecidableEq

/-- `FeasibleVersionsList.make` from `service/tiny_jsdelivr.py` (lines
95–151): resolve a version-specifier string against a registry document.
The final `return FeasibleVersionsList([], False)` of the Python code is
unreachable here because the modelled dist-tag lookup is total. -/
def FeasibleVersionsList.make (O : SemverOracle) (version_spec_str : String)
    (registry_json : ValidRegistryJson) : FeasibleVersionsList :=
  if version_spec_str = "dist-tags" then
    -- Show all versions with their dist-tags.
    FeasibleVersionsList.mk (registry_json.dist_tags.map Prod.snd) false
  else if version_spec_str = "all" then
    -- Show all versions.
    FeasibleVersionsList.mk (registry_json.versions.map Prod.fst) false
  else if O.is_valid_version version_spec_str then
    -- An exact version.
    if (registry_json.versions.map Prod.fst).contains version_spec_str = false then
      FeasibleVersionsList.mk [] false
    else
      FeasibleVersionsList.mk [version_spec_str] true
  else
    match O.range version_spec_str with
    | some matcher =>
        -- A version range: all versions satisfying it.
        FeasibleVersionsList.mk
          ((registry_json.versions.map Prod.fst).filter matcher) false
    | none =>
        -- Range construction raised: treat the string as a dist-tag.
        match registry_json.dist_tags.lookup version_spec_str with
        | none => FeasibleVersionsList.mk [] false
        | some ver => FeasibleVersionsList.mk [ver] true

/-- State of the two cache-relevant filesystem paths derived from
`local_name`: the tarball file `<cache>/<local_name>.tgz` and the unpacked
directory `<cache>/<local_name>`. -/
structure CacheFs where
  tarball_exists : Bool
  dir_exists : Bool
deriving DecidableEq

/-- I/O performed by one call of `download_and_unpack_tarball` beyond pure
existence checks: tarball downloads, tarball extractions, and cache-size
checks triggered. -/
structure TarballEffects where
  downloads : Nat
  extractions : Nat
  size_checks : Nat
deriving DecidableEq

/-- Exceptions that `download_and_unpack_tarball` can raise: the `KeyError`
from `registry_json['versions'][exact_version]` when the version is not a
key of the versions dict, and the `HTTPError` from `raise_for_status` when
the upstream fetch fails. Neither is a `RequestNotValidError`. -/
inductive TarballError where
  | keyError
  | fetchError
deriving DecidableEq

/-- `download_and_unpack_tarball` from `service/tiny_jsdelivr.py` (lines
257–287), as a transformer of the cache filesystem state. `fetch_ok` models
whether `requests.get` on the tarball URL succeeds. Returns the new state
together with the I/O effects performed, or the exception raised. -/
def download_and_unpack_tarball (registry_json : ValidRegistryJson)
    (exact_version : String) (fetch_ok : Bool) (fs : CacheFs) :
    Except TarballError (CacheFs × TarballEffects) :=
  -- step 1: `if not os.path.exists(tarball_path)`: download and save
  let step1 : Except TarballError (CacheFs × Nat × Bool) :=
    if fs.tarball_exists then
      Except.ok (fs, 0, false)
    else
      match registry_json.versions.lookup exact_version with
      | none => Except.error TarballError.keyError
      | some _ =>
          if fetch_ok then
            Except.ok (CacheFs.mk true fs.dir_exists, 1, true)
          else
            Except.error TarballError.fetchError
  match step1 with
  | Except.error e => Except.error e
  | Except.ok (fs1, dl, flag1) =>
      -- step 2: `if not os.path.exists(tarball_unpacked_dir_path)`: extract
      let (fs2, ex, flag2) :=
        if fs1.dir_exists then (fs1, 0, false)
        else (CacheFs.mk fs1.tarball_exists true, 1, true)
      -- `if flag_new_dir_or_file_cached: report_cache_folder_size(...)`
      let checks := if flag1 || flag2 then 1 else 0
      Except.ok (fs2, TarballEffects.mk dl ex checks)

/-- Claim C4: after a first successful materialization of a
`(package, exact version)` pair, a second sequential call performs no
download, no extraction and no size check — nothing beyond existence
checks — and in any successful call the download happens exactly when the
tarball file was absent and the extraction exactly when the unpacked
directory was absent. -/
theorem c4_materialization_idempotent (registry_json : ValidRegistryJson)
    (exact_version : String) (fetch_ok fetch_ok2 : Bool) (fs fs1 : CacheFs)
    (eff : TarballEffects)
    (h : download_and_unpack_tarball registry_json exact_version fetch_ok fs =
      Except.ok (fs1, eff)) :
    download_and_unpack_tarball registry_json exact_version fetch_ok2 fs1 =
      Except.ok (fs1, TarballEffects.mk 0 0 0) ∧
    eff.downloads = (if fs.tarball_exists then 0 else 1) ∧
    eff.extractions = (if fs.dir_exists then 0 else 1) := by
  rcases fs with ⟨tb, dir⟩
  rcases hl : registry_json.versions.lookup exact_version with _ | val <;>
    rcases tb with _ | _ <;> rcases dir with _ | _ <;>
    rcases fetch_ok with _ | _ <;>
    simp only [download_and_unpack_tarball, hl] at h ⊢ <;>
    simp_all <;>
    rcases h with ⟨h1, h2⟩ <;> subst h1 <;> subst h2 <;> simp_all

/-- Witness for C4: fresh cache, successful fetch. -/
theorem c4_materialization_idempotent_witness :
    download_and_unpack_tarball
      (ValidRegistryJson.mk []
        [("1.0.0", VersionValueJson.mk (DistObjectJson.mk "u"))])
      "1.0.0" true (CacheFs.mk true true) =
      Except.ok (CacheFs.mk true true, TarballEffects.mk 0 0 0) :=
  (c4_materialization_idempotent
    (ValidRegistryJson.mk []
      [("1.0.0", VersionValueJson.mk (DistObjectJson.mk "u"))])
    "1.0.0" true true (CacheFs.mk false false) (CacheFs.mk true true)
    (TarballEffects.mk 1 1 1) rfl).1

/-- Key membership of an association list agrees with `lookup`. -/
theorem lookup_isSome_iff_contains {α : Type} (l : List (String × α)) (k : String) :
    (l.lookup k).isSome = true ↔ (l.map Prod.fst).contains k = true := by
  induction l with
  | nil => simp
  | cons p rest ih =>
      rcases p with ⟨k', v⟩
      by_cases h : k = k'
      · subst h
        simp [List.lookup]
      · have hbeq : (k == k') = false := by
          simpa using h
        simp [List.lookup, hbeq, ih, h]

/-- Helper: on the dist-tag fallback branch (specifier is neither literal
nor valid version, and range construction failed), resolution returns the
tag's version designated, or the empty undesignated list. -/
theorem make_dist_tag_branch (O : SemverOracle) (R : ValidRegistryJson)
    (s : String)
    (h1 : s ≠ "dist-tags") (h2 : s ≠ "all")
    (h3 : O.is_valid_version s = false)
    (h4 : O.range s = none) :
    FeasibleVersionsList.make O s R =
      (match R.dist_tags.lookup s with
        | none => FeasibleVersionsList.mk [] false
        | some ver => FeasibleVersionsList.mk [ver] true) := by
  simp [FeasibleVersionsList.make, h1, h2, h3, h4]

/-- Kinds of pages the handler can respond with (HTML rendering itself is
an external collaborator). -/
inductive PageKind where
  | allVersions
  | versionsList
  | servedObject
deriving DecidableEq

/-- Outcome of one request as observed through `delivr`
(`service/tiny_jsdelivr.py`, lines 162–177): a normal response page, a
`RequestNotValidError` converted into a 4xx client-fault response, or any
other exception re-raised and surfaced as a server error. -/
inductive Outcome where
  | page (status : Nat) (kind : PageKind)
  | clientFault (status : Nat)
  | serverFault
deriving DecidableEq

/-- The version-resolution and materialization slice of `handle_path`
(`service/tiny_jsdelivr.py`, lines 198–235), wrapped in `delivr`'s
exception handling. The registry document is already fetched; `serve`
abstracts `give_file_or_dir` (which may itself produce a 404 client fault
or a page). `TarballError`s (`KeyError`, `HTTPError`) are not
`RequestNotValidError`s, so `delivr` re-raises them: they surface as
`Outcome.serverFault`. The impossible case of a designated result with
list length not 1 models the handler's `assert`, whose failure would also
be a server fault. -/
def handle_versioned_request (O : SemverOracle) (version_spec_str : String)
    (registry_json : ValidRegistryJson) (fetch_ok : Bool) (fs : CacheFs)
    (serve : String → Outcome) : Outcome :=
  let feasible_vers := FeasibleVersionsList.make O version_spec_str registry_json
  if feasible_vers.versions.length = 0 then
    -- No version satisfies the requirement: show all versions, status 400.
    Outcome.page 400 PageKind.allVersions
  else if feasible_vers.version_is_designated = false then
    -- List all feasible versions.
    Outcome.page 200 PageKind.versionsList
  else
    match feasible_vers.versions with
    | [exact_version] =>
        match download_and_unpack_tarball registry_json exact_version fetch_ok fs with
        | Except.error _ => Outcome.serverFault
        | Except.ok _ => serve exact_version
    | _ => Outcome.serverFault

/-- Claim C5, counterexample: a registry whose dist-tag `"latest"` points at
`"9.9.9"`, a version absent from `versions`. A request designating that tag
on a fresh cache does not produce a "not found" client fault: the `KeyError`
raised by `registry_json['versions']['9.9.9']` escapes `delivr`'s
`RequestNotValidError` handler and surfaces as a server error. The oracle
values match the real semver library: `"latest"` is not a valid version and
not a parseable range. -/
theorem c5_dangling_dist_tag_counterexample :
    (ValidRegistryJson.mk [("latest", "9.9.9")]
      [("1.0.0", VersionValueJson.mk (DistObjectJson.mk "u"))]).dist_tags.lookup
        "latest" = some "9.9.9" ∧
    ((ValidRegistryJson.mk [("latest", "9.9.9")]
      [("1.0.0", VersionValueJson.mk (DistObjectJson.mk "u"))]).versions.map
        Prod.fst).contains "9.9.9" = false ∧
    handle_versioned_request
      (SemverOracle.mk (fun _ => false) (fun _ => none)) "latest"
      (ValidRegistryJson.mk [("latest", "9.9.9")]
        [("1.0.0", VersionValueJson.mk (DistObjectJson.mk "u"))])
      true (CacheFs.mk false false) (fun _ => Outcome.page 200 PageKind.servedObject)
      = Outcome.serverFault :=
  ⟨rfl, rfl, rfl⟩

/-- Claim C5 as amended: for every registry document whose dist-tags map a
tag to a version absent from `versions`, a request that designates that tag
on a cache where the tarball is not yet present raises an uncaught
`KeyError` in `download_and_unpack_tarball` and surfaces as a SERVER error;
the missing-version failure is not converted into a "not found"-style
client fault. (The hypotheses on the oracle state that the tag is neither a
valid exact version nor a parseable range, which is what makes the request
designate the tag.) -/
theorem c5_dangling_dist_tag_is_server_fault (O : SemverOracle)
    (R : ValidRegistryJson) (t v : String) (fetch_ok : Bool) (fs : CacheFs)
    (serve : String → Outcome)
    (h1 : t ≠ "dist-tags") (h2 : t ≠ "all")
    (h3 : O.is_valid_version t = false) (h4 : O.range t = none)
    (htag : R.dist_tags.lookup t = some v)
    (habsent : (R.versions.map Prod.fst).contains v = false)
    (hfresh : fs.tarball_exists = false) :
    handle_versioned_request O t R fetch_ok fs serve = Outcome.serverFault := by
  have hmk : FeasibleVersionsList.make O t R = FeasibleVersionsList.mk [v] true := by
    rw [make_dist_tag_branch O R t h1 h2 h3 h4, htag]
  have hlookup : R.versions.lookup v = none := by
    rcases hval : R.versions.lookup v with _ | val
    · rfl
    · have : (R.versions.lookup v).isSome = true := by rw [hval]; rfl
      rw [(lookup_isSome_iff_contains R.versions v).mp this] at habsent
      exact absurd habsent (by decide)
  unfold handle_versioned_request
  rw [hmk]
  simp only [List.length_cons, List.length_nil]
  rw [if_neg (by decide), if_neg (by decide)]
  unfold download_and_unpack_tarball
  rw [hfresh]
  simp [hlookup]

/-- Witness for the amended C5 at a concrete registry and cache state. -/
theorem c5_dangling_dist_tag_is_server_fault_witness :
    handle_versioned_request
      (SemverOracle.mk (fun _ => false) (fun _ => none)) "next"
      (ValidRegistryJson.mk [("next", "3.0.0")]
        [("2.0.0", VersionValueJson.mk (DistObjectJson.mk "w"))])
      false (CacheFs.mk false true) (fun _ => Outcome.serverFault)
      = Outcome.serverFault :=
  c5_dangling_dist_tag_is_server_fault
    (SemverOracle.mk (fun _ => false) (fun _ => none))
    (ValidRegistryJson.mk [("next", "3.0.0")]
      [("2.0.0", VersionValueJson.mk (DistObjectJson.mk "w"))])
    "next" "3.0.0" false (CacheFs.mk false true) (fun _ => Outcome.serverFault)
    (by decide) (by decide) rfl rfl rfl rfl rfl

/-- Claim C1: for every registry document `R` and every string `v` with
`isValidVersion(v)`: if `v` is a key of `R.versions`, resolution returns the
singleton `[v]` with `is_designated = true`; otherwise it returns the empty
list with `is_designated = false`.  The two oracle hypotheses record that
the literals `"all"` and `"dist-tags"` are not valid semantic versions
(a fact of the external semver library: a version starts with a digit). -/
theorem c1_exact_version_resolution (O : SemverOracle) (R : ValidRegistryJson)
    (v : String)
    (hall : O.is_valid_version "all" = false)
    (hdt : O.is_valid_version "dist-tags" = false)
    (hv : O.is_valid_version v = true) :
    ((R.versions.map Prod.fst).contains v = true →
      FeasibleVersionsList.make O v R = FeasibleVersionsList.mk [v] true) ∧
    ((R.versions.map Prod.fst).contains v = false →
      FeasibleVersionsList.make O v R = FeasibleVersionsList.mk [] false) := by
  have h1 : v ≠ "dist-tags" := by
    intro h; rw [h] at hv; rw [hdt] at hv; exact Bool.false_ne_true hv
  have h2 : v ≠ "all" := by
    intro h; rw [h] at hv; rw [hall] at hv; exact Bool.false_ne_true hv
  constructor
  · intro hmem
    unfold FeasibleVersionsList.make
    rw [if_neg h1, if_neg h2, if_pos hv, if_neg (by rw [hmem]; decide)]
  · intro hmem
    unfold FeasibleVersionsList.make
    rw [if_neg h1, if_neg h2, if_pos hv, if_pos hmem]

/-- Witness for C1 at a concrete oracle and registry. -/
theorem c1_exact_version_resolution_witness :
    FeasibleVersionsList.make
      (SemverOracle.mk (fun s => s == "1.0.0") (fun _ => none)) "1.0.0"
      (ValidRegistryJson.mk []
        [("1.0.0", VersionValueJson.mk (DistObjectJson.mk "u"))]) =
      FeasibleVersionsList.mk ["1.0.0"] true :=
  (c1_exact_version_resolution
    (SemverOracle.mk (fun s => s == "1.0.0") (fun _ => none))
    (ValidRegistryJson.mk []
      [("1.0.0", VersionValueJson.mk (DistObjectJson.mk "u"))])
    "1.0.0" (by decide) (by decide) (by decide)).1 (by decide)

/-- Claim C2: for every specifier `s` that is neither literal, not a valid
exact version, and for which range construction succeeds with `matcher`,
resolution returns exactly the keys of `R.versions` satisfying the range,
with `is_designated = false` (in particular also when exactly one version
matches: the result is never designated on this branch). -/
theorem c2_range_resolution (O : SemverOracle) (R : ValidRegistryJson)
    (s : String) (matcher : String → Bool)
    (h1 : s ≠ "dist-tags") (h2 : s ≠ "all")
    (h3 : O.is_valid_version s = false)
    (h4 : O.range s = some matcher) :
    FeasibleVersionsList.make O s R =
      FeasibleVersionsList.mk
        ((R.versions.map Prod.fst).filter matcher) false := by
  simp [FeasibleVersionsList.make, h1, h2, h3, h4]

/-- Witness for C2: a range matching exactly one version still yields
`is_designated = false`. -/
theorem c2_range_resolution_witness :
    FeasibleVersionsList.make
      (SemverOracle.mk (fun _ => false) (fun _ => some (fun v => v == "1.5.0")))
      "^1.5"
      (ValidRegistryJson.mk []
        [("1.0.0", VersionValueJson.mk (DistObjectJson.mk "a")),
         ("1.5.0", VersionValueJson.mk (DistObjectJson.mk "b"))]) =
      FeasibleVersionsList.mk ["1.5.0"] false := by
  have h := c2_range_resolution
    (SemverOracle.mk (fun _ => false) (fun _ => some (fun v => v == "1.5.0")))
    (ValidRegistryJson.mk []
      [("1.0.0", VersionValueJson.mk (DistObjectJson.mk "a")),
       ("1.5.0", VersionValueJson.mk (DistObjectJson.mk "b"))])
    "^1.5" (fun v => v == "1.5.0") (by decide) (by decide) rfl rfl
  rw [h]
  rfl

/-- Claim C3: for every specifier `s` that is neither literal nor a valid
exact version, if range construction fails — the oracle's `none`, which in
the source covers any exception raised inside the `try` block, not only a
parse error — resolution does not raise (it is a total function here) and
falls through to the dist-tag interpretation: the tag's version, designated,
when `s` is a key of `R.dist_tags`, and the empty undesignated list
otherwise. -/
theorem c3_range_failure_falls_through (O : SemverOracle)
    (R : ValidRegistryJson) (s : String)
    (h1 : s ≠ "dist-tags") (h2 : s ≠ "all")
    (h3 : O.is_valid_version s = false)
    (h4 : O.range s = none) :
    (∀ v, R.dist_tags.lookup s = some v →
      FeasibleVersionsList.make O s R = FeasibleVersionsList.mk [v] true) ∧
    (R.dist_tags.lookup s = none →
      FeasibleVersionsList.make O s R = FeasibleVersionsList.mk [] false) := by
  constructor
  · intro v hvml
    simp [FeasibleVersionsList.make, h1, h2, h3, h4, hvml]
  · intro hvml
    simp [FeasibleVersionsList.make, h1, h2, h3, h4, hvml]

/-- Witness for C3 at a concrete oracle and registry. -/
theorem c3_range_failure_falls_through_witness :
    FeasibleVersionsList.make
      (SemverOracle.mk (fun _ => false) (fun _ => none)) "latest"
      (ValidRegistryJson.mk [("latest", "2.0.0")]
        [("2.0.0", VersionValueJson.mk (DistObjectJson.mk "u"))]) =
      FeasibleVersionsList.mk ["2.0.0"] true :=
  (c3_range_failure_falls_through
    (SemverOracle.mk (fun _ => false) (fun _ => none))
    (ValidRegistryJson.mk [("latest", "2.0.0")]
      [("2.0.0", VersionValueJson.mk (DistObjectJson.mk "u"))])
    "latest" (by decide) (by decide) rfl rfl).1 "2.0.0" (by decide)

/-- Claim C6: resolving the literal `"all"` against any registry document —
including one whose dist-tags contain a tag literally named `"all"` —
returns exactly the keys of `R.versions` with `is_designated = false`:
the literal branch is tested before the dist-tag fallback, so it always
shadows such a tag. -/
theorem c6_all_literal_shadows_tags (O : SemverOracle) (R : ValidRegistryJson) :
    FeasibleVersionsList.make O "all" R =
      FeasibleVersionsList.mk (R.versions.map Prod.fst) false := by
  simp [FeasibleVersionsList.make]

/-- Claim C10: whenever resolution reports a designated version, the
returned list has exactly one element, so the request handler's
`assert len(feasible_vers.versions) == 1` and subsequent selection of
`versions[0]` are always well-defined. -/
theorem c10_designated_implies_singleton (O : SemverOracle) (s : String)
    (R : ValidRegistryJson)
    (h : (FeasibleVersionsList.make O s R).version_is_designated = true) :
    (FeasibleVersionsList.make O s R).versions.length = 1 := by
  rcases hr : O.range s with _ | matcher <;>
    rcases hd : R.dist_tags.lookup s with _ | ver <;>
    simp only [FeasibleVersionsList.make, hr, hd] at h ⊢ <;>
    split_ifs at h ⊢ <;> simp_all

/-- Witness for C10 at a concrete designated resolution. -/
theorem c10_designated_implies_singleton_witness :
    (FeasibleVersionsList.make
      (SemverOracle.mk (fun s => s == "1.0.0") (fun _ => none)) "1.0.0"
      (ValidRegistryJson.mk []
        [("1.0.0", VersionValueJson.mk (DistObjectJson.mk "u"))])).versions.length
      = 1 :=
  c10_designated_implies_singleton
    (SemverOracle.mk (fun s => s == "1.0.0") (fun _ => none)) "1.0.0"
    (ValidRegistryJson.mk []
      [("1.0.0", VersionValueJson.mk (DistObjectJson.mk "u"))])
    (by decide)

/-- `PurePosixPathThatMightBeDir` from `tiny_utils/general.py`: a path that
remembers whether the string it was built from ended in a slash. Path
normalization performed by Python's `PurePosixPath` is irrelevant to the
claims and not modelled; the raw characters are kept. -/
structure PurePosixPathThatMightBeDir where
  path : List Char
  is_dir : Bool
deriving DecidableEq

/-- `PathInfo` from `tiny_utils/network.py`. Strings are embedded as
`List Char` (Python `str` indexing and slicing is positional). -/
structure PathInfo where
  package_name : List Char
  version_spec_str : List Char
  obj_absolute_path : Option PurePosixPathThatMightBeDir
deriving DecidableEq

/-- `PathInfo.make` from `tiny_utils/network.py` (lines 65–115). The source
asserts `path.startswith('/')`; the theorems below quantify over paths of
the form `'/' :: p`. `path.find('/', 1)` and the slices `path[1:slash_ind]`
and `path[slash_ind:]` are rendered as `takeWhile`/`dropWhile` on
`path.drop 1`; `head.split('@')` with exactly one `'@'` is rendered as the
take/drop pair around the unique `'@'`. Errors carry the HTTP status code
of the raised `RequestNotValidError`. -/
def PathInfo.make (path : List Char) : Except Nat PathInfo :=
  let rest := path.drop 1
  let head := rest.takeWhile (fun c => c != '/')
  let tailPart := rest.dropWhile (fun c => c != '/')
  let obj_absolute_path : Option PurePosixPathThatMightBeDir :=
    if tailPart = [] then none
    else some (PurePosixPathThatMightBeDir.mk tailPart
      (tailPart.getLast? == some '/'))
  match head.count '@' with
  | 0 =>
      -- only a package name; no version specification
      if head = [] then Except.error 400
      else Except.ok (PathInfo.mk head ['l','a','t','e','s','t'] obj_absolute_path)
  | 1 =>
      -- a version specification is present
      let package_name := head.takeWhile (fun c => c != '@')
      let version_spec_str := (head.dropWhile (fun c => c != '@')).drop 1
      if package_name = [] then Except.error 400
      else if version_spec_str = [] then Except.error 400
      else Except.ok (PathInfo.mk package_name version_spec_str obj_absolute_path)
  | _ => Except.error 400

theorem except_isOk_ok {ε α : Type} (a : α) :
    (Except.ok a : Except ε α).isOk = true := rfl

theorem except_isOk_error {ε α : Type} (e : ε) :
    (Except.error e : Except ε α).isOk = false := rfl

/-- Claim C7: for every request path `'/' :: p`, parsing fails — always with
status 400, a client-fault code — if and only if, in the segment between
position 1 and the first later `'/'` (or the end), the package-name side of
the `'@'` split is empty, or an `'@'` is present with an empty
version-specifier side, or more than one `'@'` appears; in particular
`"/left@@right"` fails. Parsing is a total function of the path, and
succeeds in every other case. -/
theorem c7_path_parse_failure_iff (p : List Char) :
    ((PathInfo.make ('/' :: p)).isOk = false ↔
      (1 < (p.takeWhile (fun c => c != '/')).count '@' ∨
       (p.takeWhile (fun c => c != '/')).takeWhile (fun c => c != '@') = [] ∨
       (1 ≤ (p.takeWhile (fun c => c != '/')).count '@' ∧
        ((p.takeWhile (fun c => c != '/')).dropWhile (fun c => c != '@')).drop 1
          = []))) ∧
    (∀ s, PathInfo.make ('/' :: p) = Except.error s → 400 ≤ s ∧ s < 500) ∧
    (PathInfo.make
      ['/', 'l', 'e', 'f', 't', '@', '@', 'r', 'i', 'g', 'h', 't']).isOk
        = false := by
  refine ⟨?_, ?_, by decide⟩
  · rcases hc : (p.takeWhile (fun c => c != '/')).count '@' with _ | n
    · -- no '@' in the segment
      simp only [PathInfo.make, List.drop_succ_cons, List.drop_zero, hc]
      rcases hseg : p.takeWhile (fun c => c != '/') with _ | ⟨c, cs⟩
      · simp [hseg, except_isOk_error]
      · have hcat : ¬c = '@' := by
          intro heq
          rw [hseg, heq] at hc
          simp [List.count_cons] at hc
        have hb : (c != '@') = true := by simpa using hcat
        simp [except_isOk_ok, except_isOk_error, hc, List.takeWhile_cons, hb]
    · rcases n with _ | m
      · -- exactly one '@' in the segment
        simp only [PathInfo.make, List.drop_succ_cons, List.drop_zero, hc]
        by_cases hl : (p.takeWhile (fun c => c != '/')).takeWhile
            (fun c => c != '@') = []
        · simp [hl, except_isOk_error, hc]
        · by_cases hr : ((p.takeWhile (fun c => c != '/')).dropWhile
              (fun c => c != '@')).tail = []
          · simp [hl, hr, except_isOk_error, hc, List.drop_one]
          · simp [hl, hr, except_isOk_ok, hc, List.drop_one]
      · -- more than one '@' in the segment
        simp only [PathInfo.make, List.drop_succ_cons, List.drop_zero, hc]
        simp [except_isOk_error, hc]
  · intro s hs
    simp only [PathInfo.make, List.drop_succ_cons, List.drop_zero] at hs
    rcases hc : (p.takeWhile (fun c => c != '/')).count '@' with _ | n <;>
      rw [hc] at hs
    · split_ifs at hs <;> simp_all <;> omega
    · rcases n with _ | m
      · split_ifs at hs <;> simp_all <;> omega
      · simp_all
        omega


/-- Witness for C7: a path whose name segment starts with the specifier
marker has an empty package-name side and is rejected. -/
theorem c7_path_parse_failure_iff_witness :
    (PathInfo.make ['/', '@', 'x']).isOk = false :=
  (c7_path_parse_failure_iff ['@', 'x']).1.mpr (Or.inr (Or.inl (by decide)))

/-- A JSON value, as far as the entry-file search observes it. -/
inductive Json where
  | null
  | bool (b : Bool)
  | num (n : Int)
  | str (s : String)
  | arr (elements : List Json)
  | obj (fields : List (String × Json))

/-- Python subscripting `value[key]` with a string key, made total:
`some` of the field on an object that has it, `none` when Python would
raise (`KeyError` on a missing key, `TypeError` on a non-object). -/
def Json.getField : Json → String → Option Json
  | Json.obj fields, key => fields.lookup key
  | _, _ => none

/-- The `assert isinstance(res, str)` step, made total: `some` exactly on
strings. -/
def Json.asString : Json → Option String
  | Json.str s => some s
  | _ => none

/-- `find_entry_file_from_package_json` from `tiny_utils/node_ecosys.py`
(lines 23–52). Each Python `try` block subscripts into the document and
asserts the result is a string; any exception (missing key, non-indexable
value, failed assert) falls through to the next block. That is modelled by
the `Option` chain: `getField` is `none` on a non-object or a missing key,
`asString` is `none` on a non-string, and a `none` candidate falls to the
next one. -/
def find_entry_file_from_package_json (package_json : Json) : Option String :=
  match (package_json.getField "jsdelivr").bind Json.asString with
  | some res => some res
  | none =>
  match (((package_json.getField "exports").bind (fun e => e.getField ".")).bind
      (fun d => d.getField "default")).bind Json.asString with
  | some res => some res
  | none =>
  match ((package_json.getField "exports").bind
      (fun e => e.getField ".")).bind Json.asString with
  | some res => some res
  | none => (package_json.getField "main").bind Json.asString

/-- The entry-file derivation as the spec words it: among the candidate
fields `jsdelivr`, `exports["."]["default"]`, `exports["."]`, `main`, in
that order, the first whose value exists and is a string wins; otherwise
no path. -/
def entry_file_per_spec (package_json : Json) : Option String :=
  [package_json.getField "jsdelivr",
   ((package_json.getField "exports").bind (fun e => e.getField ".")).bind
     (fun d => d.getField "default"),
   (package_json.getField "exports").bind (fun e => e.getField "."),
   package_json.getField "main"].findSome? (fun c => c.bind Json.asString)

/-- Claim C8: for every package metadata document, the entry-file search
returns the first candidate field value that exists and is a string, in the
order `jsdelivr`, `exports["."]["default"]`, `exports["."]`, `main`, and
`none` when no candidate yields a string; it is a total function, so no
shape of the fields makes it raise. -/
theorem c8_entry_file_first_string_wins (package_json : Json) :
    find_entry_file_from_package_json package_json =
      entry_file_per_spec package_json := by
  unfold find_entry_file_from_package_json entry_file_per_spec
  rcases h1 : (package_json.getField "jsdelivr").bind Json.asString with _ | r1 <;>
    rcases h2 : (((package_json.getField "exports").bind
        (fun e => e.getField ".")).bind (fun d => d.getField "default")).bind
        Json.asString with _ | r2 <;>
    rcases h3 : ((package_json.getField "exports").bind
        (fun e => e.getField ".")).bind Json.asString with _ | r3 <;>
    simp [List.findSome?, h1, h2, h3] <;>
    cases (package_json.getField "main").bind Json.asString <;> rfl

/-- A filesystem entry under the cache root: a file with a byte size, or a
directory of named entries. -/
inductive FsEntry where
  | file (size : Nat)
  | dir (entries : List (String × FsEntry))

mutual

/-- `get_entry_size` from `tiny_utils/general.py`: a file's size, or the
recursive size of a folder. -/
def get_entry_size : FsEntry → Nat
  | FsEntry.file n => n
  | FsEntry.dir entries => get_folder_size entries

/-- `get_folder_size` from `tiny_utils/general.py`: the sum of the sizes of
a folder's entries. -/
def get_folder_size : List (String × FsEntry) → Nat
  | [] => 0
  | e :: rest => get_entry_size e.2 + get_folder_size rest

end

/-- `CACHE_FOLDER_SIZE_THRESHOLD` from `service/tiny_jsdelivr.py`: 1 MiB. -/
def CACHE_FOLDER_SIZE_THRESHOLD : Nat := (2 ^ 20) * 1

/-- The `(size, display name)` list `ls` built by `report_cache_folder_size`
over the top-level entries of the cache root: directories get a trailing
slash appended to their name. -/
def cacheEntriesList (root : List (String × FsEntry)) : List (Nat × String) :=
  root.map (fun e =>
    (get_entry_size e.2,
     match e.2 with
     | FsEntry.dir _ => e.1 ++ "/"
     | FsEntry.file _ => e.1))

/-- The order induced by `compare_size_entry` through `cmp_to_key`: larger
sizes first, ties broken by entry name ascending. -/
def size_entry_le (lhs rhs : Nat × String) : Prop :=
  rhs.1 < lhs.1 ∨ (lhs.1 = rhs.1 ∧ lhs.2 ≤ rhs.2)

instance : DecidableRel size_entry_le := fun a b =>
  inferInstanceAs (Decidable (b.1 < a.1 ∨ (a.1 = b.1 ∧ a.2 ≤ b.2)))

instance : IsTotal (Nat × String) size_entry_le where
  total := by
    intro a b
    rcases Nat.lt_trichotomy a.1 b.1 with h | h | h
    · exact Or.inr (Or.inl h)
    · rcases le_total a.2 b.2 with hn | hn
      · exact Or.inl (Or.inr ⟨h, hn⟩)
      · exact Or.inr (Or.inr ⟨h.symm, hn⟩)
    · exact Or.inl (Or.inl h)

instance : IsTrans (Nat × String) size_entry_le where
  trans := by
    intro a b c hab hbc
    rcases hab with h1 | ⟨h1, h1n⟩
    · rcases hbc with h2 | ⟨h2, _⟩
      · exact Or.inl (h2.trans h1)
      · exact Or.inl (h2 ▸ h1)
    · rcases hbc with h2 | ⟨h2, h2n⟩
      · exact Or.inl (h1 ▸ h2)
      · exact Or.inr ⟨h1.trans h2, h1n.trans h2n⟩

/-- `report_cache_folder_size` from `service/tiny_jsdelivr.py` (lines
37–87): compute each top-level entry's recursive size; if the total is
below the threshold, return without warning (`none`); otherwise warn,
listing the ten entries that come first in the `compare_size_entry` order.
`heapq.nsmallest(10, ls, key)` is modelled by its documented semantics,
`sorted(ls, key=key)[:10]`. The asserts inside `compare_size_entry` cannot
fire on a real directory listing, whose display names are distinct. -/
def report_cache_folder_size (root : List (String × FsEntry)) :
    Option (List (Nat × String)) :=
  let ls := cacheEntriesList root
  let folder_size := (ls.map Prod.fst).sum
  if folder_size < CACHE_FOLDER_SIZE_THRESHOLD then none
  else some ((ls.insertionSort size_entry_le).take 10)

/-- Claim C9: the size check warns exactly when the sum of the recursive
sizes of the top-level cache entries reaches the threshold, and the warning
lists `min 10 n` entries drawn from the entry list, ordered largest size
first with equal sizes tied by name ascending (the `size_entry_le` order),
such that every listed entry precedes every unlisted one in that order —
i.e. the 10 largest, or all entries when there are fewer than 10. The
distinct-names hypothesis records that display names of a real directory
listing are distinct (the code asserts this in its comparator). -/
theorem c9_cache_size_warning (root : List (String × FsEntry))
    (hnames : ((cacheEntriesList root).map Prod.snd).Nodup) :
    ((report_cache_folder_size root).isSome = true ↔
      CACHE_FOLDER_SIZE_THRESHOLD ≤ ((cacheEntriesList root).map Prod.fst).sum) ∧
    ∀ l, report_cache_folder_size root = some l →
      l.length = min 10 root.length ∧
      l.Sorted size_entry_le ∧
      List.Subperm l (cacheEntriesList root) ∧
      ∀ x ∈ l, ∀ y ∈ cacheEntriesList root, y ∉ l → size_entry_le x y := by
  constructor
  · simp only [report_cache_folder_size]
    split_ifs with h
    · simp only [Option.isSome_none]
      constructor
      · intro hfalse; exact absurd hfalse (by decide)
      · intro hge; omega
    · simp only [Option.isSome_some]
      constructor
      · intro _; omega
      · intro _; trivial
  · intro l hl
    simp only [report_cache_folder_size] at hl
    split_ifs at hl with h
    have hl' : ((cacheEntriesList root).insertionSort size_entry_le).take 10 = l := by
      simpa using hl
    subst hl'
    refine ⟨?_, ?_, ?_, ?_⟩
    · rw [List.length_take, List.length_insertionSort]
      simp [cacheEntriesList]
    · exact List.Pairwise.sublist (List.take_sublist _ _)
        (List.sorted_insertionSort size_entry_le (cacheEntriesList root))
    · exact ((List.take_sublist _ _).subperm).trans
        (List.perm_insertionSort size_entry_le (cacheEntriesList root)).subperm
    · intro x hx y hy hyl
      have hy' : y ∈ (cacheEntriesList root).insertionSort size_entry_le := by
        rw [List.mem_insertionSort]; exact hy
      rw [← List.take_append_drop 10
        ((cacheEntriesList root).insertionSort size_entry_le)] at hy'
      rcases List.mem_append.mp hy' with hmem | hmem
      · exact absurd hmem hyl
      · have hs := List.sorted_insertionSort size_entry_le (cacheEntriesList root)
        rw [← List.take_append_drop 10
          ((cacheEntriesList root).insertionSort size_entry_le)] at hs
        exact (List.pairwise_append.mp hs).2.2 x hx y hmem

/-- Witness for C9: a cache root over the threshold, with a file and a
directory; the warning lists both, largest first (the directory name
carries its trailing slash). -/
theorem c9_cache_size_warning_witness :
    ([(700000, "b/"), (500000, "a")] : List (Nat × String)).Sorted
      size_entry_le :=
  ((c9_cache_size_warning
    [("a", FsEntry.file 500000), ("b", FsEntry.dir [("x", FsEntry.file 700000)])]
    (by decide)).2
    [(700000, "b/"), (500000, "a")]
    (by
      norm_num [report_cache_folder_size, cacheEntriesList, get_entry_size,
        get_folder_size, CACHE_FOLDER_SIZE_THRESHOLD, List.insertionSort,
        List.orderedInsert, size_entry_le]
      rfl)).2.1

end TinyJsdelivr
